import Mathlib

/-!
Verification of the njord SQL query-construction layer.

The Rust sources embedded here:
- `src/njord/src/mysql/select.rs` (the `SelectQueryBuilder` fluent builder and
  `build_query`, plus `raw_execute`);
- `src/njord/src/mssql/insert.rs` (`insert`, `generate_statement`,
  `generate_insert_into_statement`);
- `src/njord/src/keys.rs` (`PrimaryKey` / `AutoIncrementPrimaryKey` and their
  `FromStr` instances).

The crate's `condition.rs`, `column.rs` and `mysql/util.rs` (the clause
renderer helpers imported by `select.rs`) are not part of the source tree
given here; those definitions are modelled from the specification, and each
such definition says so in its doc comment.
-/

namespace Njord

/-- Modelled from the spec: `condition.rs` is not under `src/`. A recursive
tagged condition tree over `{Eq, Gt, Lt, Ge, Le, Ne, In, NotIn, And, Or, Like}`
(spec section 3), each leaf holding a column name and one or more literal
values in textual form; combinators hold two sub-conditions. -/
inductive Condition where
  | Eq (column value : String)
  | Gt (column value : String)
  | Lt (column value : String)
  | Ge (column value : String)
  | Le (column value : String)
  | Ne (column value : String)
  | In (column : String) (values : List String)
  | NotIn (column : String) (values : List String)
  | Like (column pattern : String)
  | And (left right : Condition)
  | Or (left right : Condition)

/-- Literal values are rendered in single quotes, exactly as in the spec's
section 8 scenario (`username = 'mjovanc'`). -/
def quoteLit (value : String) : String :=
  "'" ++ value ++ "'"

/-- Modelled from the spec (section 4.1): rendering recursively emits
`lhs OP rhs`, wraps `In`/`NotIn` as parenthesized comma-separated literal
lists, and boolean combinators as `(left AND/OR right)` with the parentheses
always present. -/
def Condition.build : Condition → String
  | .Eq column value => column ++ " = " ++ quoteLit value
  | .Gt column value => column ++ " > " ++ quoteLit value
  | .Lt column value => column ++ " < " ++ quoteLit value
  | .Ge column value => column ++ " >= " ++ quoteLit value
  | .Le column value => column ++ " <= " ++ quoteLit value
  | .Ne column value => column ++ " <> " ++ quoteLit value
  | .In column values =>
      column ++ " IN (" ++ String.intercalate ", " (values.map quoteLit) ++ ")"
  | .NotIn column values =>
      column ++ " NOT IN (" ++ String.intercalate ", " (values.map quoteLit) ++ ")"
  | .Like column pattern => column ++ " LIKE " ++ quoteLit pattern
  | .And left right => "(" ++ left.build ++ " AND " ++ right.build ++ ")"
  | .Or left right => "(" ++ left.build ++ " OR " ++ right.build ++ ")"

/-- Modelled from the spec: `column.rs` is not under `src/`. A projection is a
plain column reference, a qualified `table.column` reference, raw/aggregate
text, or a nested sub-query (spec section 3). The sub-query variant carries
the sub-query's already-rendered SQL, since per spec section 4.3 a sub-query
projection renders as the sub-query's own `build_query()` output embedded
directly, with no parentheses added. -/
inductive Column where
  | Text (name : String)
  | Qualified (table column : String)
  | Raw (text : String)
  | SubQueryText (sql : String)

/-- Modelled from the spec (section 3): rendering of one projection. -/
def Column.build : Column → String
  | .Text name => name
  | .Qualified table column => table ++ "." ++ column
  | .Raw text => text
  | .SubQueryText sql => sql

/-- Row-reflection contract of `trait Table` (spec section 4.4): a value of
this type is one typed row object, exposing its table name, its declared
column names in order, the textual form of its current field values in the
same order, and the predicate `is_auto_increment_primary_key` that the INSERT
generator applies to a column's value text. -/
structure Table where
  get_name : String
  get_column_fields : List String
  get_column_values : List String
  is_auto_increment_primary_key : String → Bool

/-- Join kinds from `util.rs` (`JoinType`), as used by `select.rs`. -/
inductive JoinType where
  | Inner
  | Left
  | Right
  | Full

/-- A registered join: kind, joined table and ON condition (`util.rs::Join`). -/
structure Join where
  join_type : JoinType
  table : Table
  on_condition : Condition

/-- Embeds `Join::new(join_type, table, on_condition)`. -/
def Join.new (join_type : JoinType) (table : Table) (on_condition : Condition) : Join :=
  ⟨join_type, table, on_condition⟩

/-- Modelled from the spec: `mysql/util.rs` is not under `src/`. WHERE
renderer (section 4.2): `None` renders `""`, `Some c` renders
`"WHERE " ++ render c`. -/
def generate_where_condition_str : Option Condition → String
  | none => ""
  | some condition => "WHERE " ++ condition.build

/-- Modelled from the spec: `mysql/util.rs` is not under `src/`. GROUP BY
renderer (section 4.2): `None` or empty list renders `""`, otherwise
`"GROUP BY " ++ comma-joined column names`. -/
def generate_group_by_str : Option (List String) → String
  | none => ""
  | some columns =>
      if columns.isEmpty then "" else "GROUP BY " ++ String.intercalate ", " columns

/-- Modelled from the spec: `mysql/util.rs` is not under `src/`. HAVING
renderer (section 4.2): only emitted when a GROUP BY is present and a HAVING
condition is set; otherwise `""`. `select.rs` passes `group_by.is_some()` as
the first argument. -/
def generate_having_str (group_by_present : Bool) : Option Condition → String
  | none => ""
  | some condition => if group_by_present then "HAVING " ++ condition.build else ""

/-- Modelled from the spec: `mysql/util.rs` is not under `src/`. ORDER BY
renderer (section 4.2): for each (columns, direction) entry emit
`"col1, col2 DIRECTION"`, join entries with commas, render `""` for an absent
spec. The `HashMap<Vec<String>, String>` is modelled as an association
list. -/
def generate_order_by_str : Option (List (List String × String)) → String
  | none => ""
  | some entries =>
      if entries.isEmpty then ""
      else
        "ORDER BY " ++
          String.intercalate ", "
            (entries.map (fun entry => String.intercalate ", " entry.1 ++ " " ++ entry.2))

/-- Modelled from the spec: `mysql/util.rs` is not under `src/`. LIMIT
renderer (section 4.2): emits its keyword only when the value is set. -/
def generate_limit_str : Option Nat → String
  | none => ""
  | some count => "LIMIT " ++ toString count

/-- Modelled from the spec: `mysql/util.rs` is not under `src/`. OFFSET
renderer (section 4.2): emits its keyword only when the value is set. -/
def generate_offset_str : Option Nat → String
  | none => ""
  | some offset => "OFFSET " ++ toString offset

/-- Embeds Rust `str::replace` at the single-character patterns used by
`insert.rs` (`value.replace("'", "''")`, `get_name().replace("\"", "")`,
`.replace("\\", "")`): every occurrence of the pattern character is replaced
by the replacement, scanning left to right. -/
def replaceCharList (pattern : Char) (replacement : List Char) : List Char → List Char
  | [] => []
  | c :: cs =>
      if c = pattern then replacement ++ replaceCharList pattern replacement cs
      else c :: replaceCharList pattern replacement cs

/-- Embeds Rust `.replace("WHERE", "")` from `select.rs` line 295: every
non-overlapping occurrence of the five-character pattern `WHERE` is removed,
scanning left to right. -/
def removeWHERE : List Char → List Char
  | 'W' :: 'H' :: 'E' :: 'R' :: 'E' :: rest => removeWHERE rest
  | c :: rest => c :: removeWHERE rest
  | [] => []

/-- String-level wrapper for `removeWHERE`. -/
def replaceWHERE (s : String) : String :=
  String.mk (removeWHERE s.data)

/-- The builder state of `SelectQueryBuilder` (`select.rs` lines 65-78), with
the twelve fields in source order: table, columns, where_condition, distinct,
group_by, order_by, limit, offset, having_condition, except_clauses,
union_clauses, joins. An inductive rather than a structure because the
EXCEPT/UNION fields hold nested builders. -/
inductive SelectQueryBuilder where
  | mk
      (table : Option Table)
      (columns : List Column)
      (where_condition : Option Condition)
      (distinct : Bool)
      (group_by : Option (List String))
      (order_by : Option (List (List String × String)))
      (limit : Option Nat)
      (offset : Option Nat)
      (having_condition : Option Condition)
      (except_clauses : Option (List SelectQueryBuilder))
      (union_clauses : Option (List SelectQueryBuilder))
      (joins : Option (List Join))

namespace SelectQueryBuilder

/-- Accessor for the `table` field. -/
def table : SelectQueryBuilder → Option Table
  | .mk t _ _ _ _ _ _ _ _ _ _ _ => t

/-- Accessor for the `columns` field. -/
def columns : SelectQueryBuilder → List Column
  | .mk _ c _ _ _ _ _ _ _ _ _ _ => c

/-- Accessor for the `where_condition` field. -/
def where_condition : SelectQueryBuilder → Option Condition
  | .mk _ _ w _ _ _ _ _ _ _ _ _ => w

/-- Accessor for the `distinct` field. -/
def distinct_flag : SelectQueryBuilder → Bool
  | .mk _ _ _ d _ _ _ _ _ _ _ _ => d

/-- Accessor for the `group_by` field. -/
def group_by_list : SelectQueryBuilder → Option (List String)
  | .mk _ _ _ _ g _ _ _ _ _ _ _ => g

/-- Accessor for the `order_by` field. -/
def order_by_spec : SelectQueryBuilder → Option (List (List String × String))
  | .mk _ _ _ _ _ o _ _ _ _ _ _ => o

/-- Accessor for the `limit` field. -/
def limit_value : SelectQueryBuilder → Option Nat
  | .mk _ _ _ _ _ _ l _ _ _ _ _ => l

/-- Accessor for the `offset` field. -/
def offset_value : SelectQueryBuilder → Option Nat
  | .mk _ _ _ _ _ _ _ o _ _ _ _ => o

/-- Accessor for the `having_condition` field. -/
def having_condition : SelectQueryBuilder → Option Condition
  | .mk _ _ _ _ _ _ _ _ h _ _ _ => h

/-- Accessor for the `except_clauses` field. -/
def except_clauses : SelectQueryBuilder → Option (List SelectQueryBuilder)
  | .mk _ _ _ _ _ _ _ _ _ e _ _ => e

/-- Accessor for the `union_clauses` field. -/
def union_clauses : SelectQueryBuilder → Option (List SelectQueryBuilder)
  | .mk _ _ _ _ _ _ _ _ _ _ u _ => u

/-- Accessor for the `joins` field. -/
def joins : SelectQueryBuilder → Option (List Join)
  | .mk _ _ _ _ _ _ _ _ _ _ _ j => j

/-- Embeds `SelectQueryBuilder::new(columns)` (`select.rs` lines 86-101). -/
def new (columns : List Column) : SelectQueryBuilder :=
  .mk none columns none false none none none none none none none none

/-- Embeds the `select` setter (`select.rs` lines 108-111). -/
def select : SelectQueryBuilder → List Column → SelectQueryBuilder
  | .mk t _ w d g o l off h e u j, columns => .mk t columns w d g o l off h e u j

/-- Embeds the `distinct` setter (`select.rs` lines 114-117). -/
def distinct : SelectQueryBuilder → SelectQueryBuilder
  | .mk t c w _ g o l off h e u j => .mk t c w true g o l off h e u j

/-- Embeds the `from` setter (`select.rs` lines 124-127); `from` is a reserved
word in Lean, hence `from_table`. -/
def from_table : SelectQueryBuilder → Table → SelectQueryBuilder
  | .mk _ c w d g o l off h e u j, tbl => .mk (some tbl) c w d g o l off h e u j

/-- Embeds the `where_clause` setter (`select.rs` lines 134-137). -/
def where_clause : SelectQueryBuilder → Condition → SelectQueryBuilder
  | .mk t c _ d g o l off h e u j, condition => .mk t c (some condition) d g o l off h e u j

/-- Embeds the `group_by` setter (`select.rs` lines 144-147). -/
def group_by : SelectQueryBuilder → List String → SelectQueryBuilder
  | .mk t c w d _ o l off h e u j, columns => .mk t c w d (some columns) o l off h e u j

/-- Embeds the `order_by` setter (`select.rs` lines 154-157). -/
def order_by : SelectQueryBuilder → List (List String × String) → SelectQueryBuilder
  | .mk t c w d g _ l off h e u j, spec => .mk t c w d g (some spec) l off h e u j

/-- Embeds the `limit` setter (`select.rs` lines 164-167). -/
def limit : SelectQueryBuilder → Nat → SelectQueryBuilder
  | .mk t c w d g o _ off h e u j, count => .mk t c w d g o (some count) off h e u j

/-- Embeds the `offset` setter (`select.rs` lines 174-177). -/
def offset : SelectQueryBuilder → Nat → SelectQueryBuilder
  | .mk t c w d g o l _ h e u j, n => .mk t c w d g o l (some n) h e u j

/-- Embeds the `having` setter (`select.rs` lines 184-187). -/
def having : SelectQueryBuilder → Condition → SelectQueryBuilder
  | .mk t c w d g o l off _ e u j, condition => .mk t c w d g o l off (some condition) e u j

/-- Embeds `except` (`select.rs` lines 204-210): push onto the existing list,
or create a fresh one-element list when no EXCEPT clause exists yet. -/
def except : SelectQueryBuilder → SelectQueryBuilder → SelectQueryBuilder
  | .mk t c w d g o l off h e u j, other_query =>
      match e with
      | some clauses => .mk t c w d g o l off h (some (clauses ++ [other_query])) u j
      | none => .mk t c w d g o l off h (some [other_query]) u j

/-- Embeds `union` (`select.rs` lines 227-233): push onto the existing list,
or create a fresh one-element list when no UNION clause exists yet. -/
def union : SelectQueryBuilder → SelectQueryBuilder → SelectQueryBuilder
  | .mk t c w d g o l off h e u j, other_query =>
      match u with
      | some clauses => .mk t c w d g o l off h e (some (clauses ++ [other_query])) j
      | none => .mk t c w d g o l off h e (some [other_query]) j

/-- Embeds `join` (`select.rs` lines 251-262): push a `Join::new(...)` onto
the existing list, or create a fresh one-element list. -/
def join : SelectQueryBuilder → JoinType → Table → Condition → SelectQueryBuilder
  | .mk t c w d g o l off h e u j, join_type, tbl, on_condition =>
      match j with
      | some js => .mk t c w d g o l off h e u (some (js ++ [Join.new join_type tbl on_condition]))
      | none => .mk t c w d g o l off h e u (some [Join.new join_type tbl on_condition])

end SelectQueryBuilder

/-- The keyword for a join kind (`select.rs` lines 284-289). -/
def join_type_str : JoinType → String
  | .Inner => "INNER JOIN"
  | .Left => "LEFT JOIN"
  | .Right => "RIGHT JOIN"
  | .Full => "FULL OUTER JOIN"

/-- Rendering of one registered join (`select.rs` lines 283-297):
`format!("{} {} ON {}", kind, table, generate_where_condition_str(Some(on)).replace("WHERE", ""))`. -/
def render_join (j : Join) : String :=
  join_type_str j.join_type ++ " " ++ j.table.get_name ++ " ON " ++
    replaceWHERE (generate_where_condition_str (some j.on_condition))

mutual

/-- Embeds `SelectQueryBuilder::build_query` (`select.rs` lines 265-348): the
fixed-order `format!` of the base statement, then the EXCEPT loop, then the
UNION loop. Rust `String::is_empty` (no bytes) is rendered as emptiness of the
character list. -/
def build_query : SelectQueryBuilder → String
  | .mk tbl cols wc dist gb ob lim off hc exc unc js =>
      let columns_str := String.intercalate ", " (cols.map Column.build)
      let table_name := (tbl.map Table.get_name).getD ""
      let join_clauses : List String :=
        match js with
        | some joins => joins.map render_join
        | none => []
      let distinct_str := if dist then "DISTINCT " else ""
      let where_condition_str := generate_where_condition_str wc
      let group_by_str := generate_group_by_str gb
      let order_by_str := generate_order_by_str ob
      let limit_str := generate_limit_str lim
      let offset_str := generate_offset_str off
      let having_str := generate_having_str gb.isSome hc
      let join_clause := if join_clauses.isEmpty then "" else String.intercalate " " join_clauses
      let query :=
        "SELECT " ++ distinct_str ++ columns_str ++ " FROM " ++ table_name ++ " " ++
          join_clause ++ " " ++ where_condition_str ++ " " ++ group_by_str ++ " " ++
          having_str ++ " " ++ order_by_str ++ " " ++ (limit_str ++ " " ++ offset_str)
      let query := append_set_ops_opt " EXCEPT " query exc
      append_set_ops_opt " UNION " query unc

/-- The `if let Some(clauses) = ... { for ... }` wrapper around one of the two
set-operation loops of `build_query`. -/
def append_set_ops_opt (keyword : String) (query : String) :
    Option (List SelectQueryBuilder) → String
  | none => query
  | some clauses => append_set_ops keyword query clauses

/-- One set-operation loop of `build_query` (`select.rs` lines 331-345):
`query = format!("{} KEYWORD {}", query, sub.build_query())` for each
registered sub-builder in order. -/
def append_set_ops (keyword : String) (query : String) :
    List SelectQueryBuilder → String
  | [] => query
  | b :: bs => append_set_ops keyword (query ++ keyword ++ build_query b) bs

end

/-- Concatenation of the renderings of a list, used to state what the
set-operation loops produce. -/
def concat_map_str (f : α → String) : List α → String
  | [] => ""
  | a :: as => f a ++ concat_map_str f as

/-- The text appended for one list of registered set-operation sub-builders:
one `keyword ++ sub.build_query()` per sub-builder, in registration order. -/
def set_op_suffix (keyword : String) (subs : List SelectQueryBuilder) : String :=
  concat_map_str (fun sub => keyword ++ build_query sub) subs

/-- The base statement in the spec's fixed clause order (spec section 4.3):
`SELECT [DISTINCT] <projections> FROM <table> <joins> <where> <group_by>
<having> <order_by> <limit> <offset>`, with the single-space separators the
`format!` call in `build_query` inserts. -/
def base_statement (b : SelectQueryBuilder) : String :=
  "SELECT " ++ (if b.distinct_flag then "DISTINCT " else "")
    ++ String.intercalate ", " (b.columns.map Column.build)
    ++ " FROM " ++ (b.table.map Table.get_name).getD ""
    ++ " " ++ String.intercalate " " ((b.joins.getD []).map render_join)
    ++ " " ++ generate_where_condition_str b.where_condition
    ++ " " ++ generate_group_by_str b.group_by_list
    ++ " " ++ generate_having_str b.group_by_list.isSome b.having_condition
    ++ " " ++ generate_order_by_str b.order_by_spec
    ++ " " ++ generate_limit_str b.limit_value
    ++ " " ++ generate_offset_str b.offset_value

/-- The builder with its HAVING condition discarded, other fields untouched.
Used to state that a HAVING condition without a GROUP BY is silently
ignored. -/
def with_having_none : SelectQueryBuilder → SelectQueryBuilder
  | .mk t c w d g o l off _ e u j => .mk t c w d g o l off none e u j

lemma intercalate_nil (s : String) : String.intercalate s [] = "" := rfl

lemma if_isEmpty_intercalate (l : List String) :
    (if l.isEmpty then "" else String.intercalate " " l) = String.intercalate " " l := by
  cases l <;> rfl

lemma append_set_ops_eq (keyword query : String) (l : List SelectQueryBuilder) :
    append_set_ops keyword query l = query ++ set_op_suffix keyword l := by
  induction l generalizing query with
  | nil => simp [append_set_ops, set_op_suffix, concat_map_str]
  | cons b bs ih =>
      simp only [append_set_ops, set_op_suffix, concat_map_str] at *
      rw [ih]
      simp [String.append_assoc]

lemma append_set_ops_opt_eq (keyword query : String) (o : Option (List SelectQueryBuilder)) :
    append_set_ops_opt keyword query o = query ++ set_op_suffix keyword (o.getD []) := by
  cases o with
  | none => simp [append_set_ops_opt, set_op_suffix, concat_map_str]
  | some l => simp [append_set_ops_opt, append_set_ops_eq]

/-- Decomposition of `build_query`: the fixed-order base statement first, then
the EXCEPT suffix, then the UNION suffix. -/
lemma build_query_decomp (b : SelectQueryBuilder) :
    build_query b =
      base_statement b ++ set_op_suffix " EXCEPT " (b.except_clauses.getD [])
        ++ set_op_suffix " UNION " (b.union_clauses.getD []) := by
  cases b with
  | mk t c w d g o l off h e u j =>
      simp only [build_query]
      rw [append_set_ops_opt_eq, append_set_ops_opt_eq]
      cases j <;>
        simp [base_statement, SelectQueryBuilder.table, SelectQueryBuilder.columns,
          SelectQueryBuilder.where_condition, SelectQueryBuilder.distinct_flag,
          SelectQueryBuilder.group_by_list, SelectQueryBuilder.order_by_spec,
          SelectQueryBuilder.limit_value, SelectQueryBuilder.offset_value,
          SelectQueryBuilder.having_condition, SelectQueryBuilder.except_clauses,
          SelectQueryBuilder.union_clauses, SelectQueryBuilder.joins,
          if_isEmpty_intercalate, intercalate_nil, String.append_assoc]

lemma generate_having_str_false (hc : Option Condition) :
    generate_having_str false hc = "" := by
  cases hc <;> simp [generate_having_str]

lemma generate_having_str_ne_iff (p : Bool) (hc : Option Condition) :
    (generate_having_str p hc ≠ "") ↔ (p = true ∧ hc.isSome = true) := by
  cases hc <;> cases p <;> simp [generate_having_str, String.ext_iff]

/-- Row shape of the `users` table from the spec's section 8 scenario. -/
def users_table : Table :=
  ⟨"users", ["id", "username", "email", "address"], [], fun _ => false⟩

/-- The builder of the spec's section 8 scenario: columns `["id","username"]`,
condition `Eq("username","mjovanc")`, table `"users"`. -/
def scenario_query : SelectQueryBuilder :=
  ((SelectQueryBuilder.new [Column.Text "id", Column.Text "username"]).from_table
    users_table).where_clause (Condition.Eq "username" "mjovanc")

/-- Bare single-column builders used as concrete set-operation operands. -/
def tiny_query (tbl col : String) : SelectQueryBuilder :=
  (SelectQueryBuilder.new [Column.Text col]).from_table ⟨tbl, [col], [], fun _ => false⟩

/-- Removal of only a leading `WHERE` keyword from a rendered condition; this
is what claim C7 says the join renderer does to the condition text. -/
def remove_leading_where (s : String) : String :=
  match s.data with
  | 'W' :: 'H' :: 'E' :: 'R' :: 'E' :: rest => String.mk rest
  | _ => s

/-- Builder with one INNER join whose ON condition mentions the column
`xWHEREy`, whose name contains `WHERE` as an internal substring. -/
def c7_query : SelectQueryBuilder :=
  (tiny_query "t1" "a").join JoinType.Inner ⟨"t2", [], [], fun _ => false⟩
    (Condition.Eq "xWHEREy" "v")

/-- C1: for every builder state, `build_query()` assembles the statement in
the fixed clause order SELECT [DISTINCT] projections FROM table joins where
group-by having order-by limit offset (the content of `base_statement`), and
only after that base statement is fully rendered appends the EXCEPT and then
the UNION set-operation clauses. -/
theorem c1_clause_order (b : SelectQueryBuilder) :
    build_query b =
      base_statement b ++ set_op_suffix " EXCEPT " (b.except_clauses.getD [])
        ++ set_op_suffix " UNION " (b.union_clauses.getD []) :=
  build_query_decomp b

/-- C2 counterexample: on the spec's section 8 scenario builder, the output is
not the claimed string with three trailing spaces. -/
theorem c2_counterexample :
    build_query scenario_query ≠
      "SELECT id, username FROM users  WHERE username = 'mjovanc'   " := by
  decide

/-- C2 amended: the scenario builder renders exactly
`SELECT id, username FROM users  WHERE username = 'mjovanc'` followed by five
trailing spaces (one separator each for the empty GROUP BY, HAVING and
ORDER BY slots, plus the `limit ++ " " ++ offset` pair, both empty); the two
spaces before WHERE are as claimed. -/
theorem c2_exact_scenario :
    build_query scenario_query =
      "SELECT id, username FROM users  WHERE username = 'mjovanc'     " := rfl

/-- C3: the HAVING fragment of `build_query` output is nonempty iff both a
GROUP BY list and a HAVING condition are set; moreover with no GROUP BY the
builder renders exactly as if the HAVING condition had never been set
(silent omission — rendering is total, no error value exists). -/
theorem c3_having_coupling (b : SelectQueryBuilder) :
    ((generate_having_str b.group_by_list.isSome b.having_condition ≠ "") ↔
      (b.group_by_list.isSome = true ∧ b.having_condition.isSome = true)) ∧
    (b.group_by_list = none → build_query b = build_query (with_having_none b)) := by
  constructor
  · exact generate_having_str_ne_iff _ _
  · intro hg
    cases b with
    | mk t c w d g o l off h e u j =>
        simp only [SelectQueryBuilder.group_by_list] at hg
        subst hg
        rw [build_query_decomp, build_query_decomp]
        simp [base_statement, with_having_none, SelectQueryBuilder.table,
          SelectQueryBuilder.columns, SelectQueryBuilder.where_condition,
          SelectQueryBuilder.distinct_flag, SelectQueryBuilder.group_by_list,
          SelectQueryBuilder.order_by_spec, SelectQueryBuilder.limit_value,
          SelectQueryBuilder.offset_value, SelectQueryBuilder.having_condition,
          SelectQueryBuilder.except_clauses, SelectQueryBuilder.union_clauses,
          SelectQueryBuilder.joins, generate_having_str_false]

/-- Witness for C3 at a concrete builder: a HAVING condition is set, no
GROUP BY is set, and the rendering equals that of the builder without the
HAVING condition. -/
theorem c3_having_coupling_witness :
    ((tiny_query "t1" "a").having (Condition.Eq "x" "y")).group_by_list = none ∧
      build_query ((tiny_query "t1" "a").having (Condition.Eq "x" "y")) =
        build_query (with_having_none ((tiny_query "t1" "a").having (Condition.Eq "x" "y"))) :=
  ⟨rfl, (c3_having_coupling _).2 rfl⟩

/-- C4 amended: on a builder with no prior set operations, an EXCEPT chain
renders in registration order (`q1 EXCEPT q2 EXCEPT q3` verbatim), but a
mixed chain renders all EXCEPT clauses before all UNION clauses regardless of
registration interleaving: registering `union q2` then `except q3` renders
`<q1> EXCEPT <q3> UNION <q2>`. -/
theorem c4_set_op_chaining (q1 q2 q3 : SelectQueryBuilder)
    (he : q1.except_clauses = none) (hu : q1.union_clauses = none) :
    (build_query ((q1.except q2).except q3) =
      build_query q1 ++ " EXCEPT " ++ build_query q2 ++ " EXCEPT " ++ build_query q3) ∧
    (build_query ((q1.union q2).except q3) =
      build_query q1 ++ " EXCEPT " ++ build_query q3 ++ " UNION " ++ build_query q2) := by
  cases q1 with
  | mk t c w d g o l off h e u j =>
      simp only [SelectQueryBuilder.except_clauses] at he
      simp only [SelectQueryBuilder.union_clauses] at hu
      subst he; subst hu
      constructor <;>
        · rw [build_query_decomp, build_query_decomp]
          simp [SelectQueryBuilder.except, SelectQueryBuilder.union, base_statement,
            SelectQueryBuilder.table, SelectQueryBuilder.columns,
            SelectQueryBuilder.where_condition, SelectQueryBuilder.distinct_flag,
            SelectQueryBuilder.group_by_list, SelectQueryBuilder.order_by_spec,
            SelectQueryBuilder.limit_value, SelectQueryBuilder.offset_value,
            SelectQueryBuilder.having_condition, SelectQueryBuilder.except_clauses,
            SelectQueryBuilder.union_clauses, SelectQueryBuilder.joins,
            set_op_suffix, concat_map_str, String.append_assoc]

/-- Witness for C4 at concrete builders with no prior set operations. -/
theorem c4_set_op_chaining_witness :
    (tiny_query "t1" "a").except_clauses = none ∧
    (tiny_query "t1" "a").union_clauses = none ∧
    ((build_query (((tiny_query "t1" "a").except (tiny_query "t2" "b")).except
        (tiny_query "t3" "c")) =
      build_query (tiny_query "t1" "a") ++ " EXCEPT " ++
        build_query (tiny_query "t2" "b") ++ " EXCEPT " ++ build_query (tiny_query "t3" "c")) ∧
    (build_query (((tiny_query "t1" "a").union (tiny_query "t2" "b")).except
        (tiny_query "t3" "c")) =
      build_query (tiny_query "t1" "a") ++ " EXCEPT " ++
        build_query (tiny_query "t3" "c") ++ " UNION " ++ build_query (tiny_query "t2" "b"))) :=
  ⟨rfl, rfl, c4_set_op_chaining _ _ _ rfl rfl⟩

/-- C4 counterexample: a mixed chain registered as `union q2` then `except q3`
is not rendered left-to-right as registered. -/
theorem c4_counterexample :
    build_query (((tiny_query "t1" "a").union (tiny_query "t2" "b")).except
        (tiny_query "t3" "c")) ≠
      build_query (tiny_query "t1" "a") ++ " UNION " ++
        build_query (tiny_query "t2" "b") ++ " EXCEPT " ++
        build_query (tiny_query "t3" "c") := by
  decide

/-- C7 amended: `build_query` renders each registered join, in insertion
order and separated by a single space, as `<KIND> JOIN <table> ON <cond>`
(Inner→INNER JOIN, Left→LEFT JOIN, Right→RIGHT JOIN, Full→FULL OUTER JOIN),
where `<cond>` is the condition's WHERE rendering with every occurrence of
the substring `WHERE` removed (not just the leading keyword; the space that
followed the leading keyword survives, giving two spaces after `ON`). -/
theorem c7_join_rendering :
    (∀ b : SelectQueryBuilder,
      build_query b =
        "SELECT " ++ (if b.distinct_flag then "DISTINCT " else "")
          ++ String.intercalate ", " (b.columns.map Column.build)
          ++ " FROM " ++ (b.table.map Table.get_name).getD ""
          ++ " " ++ String.intercalate " " ((b.joins.getD []).map render_join)
          ++ " " ++ generate_where_condition_str b.where_condition
          ++ " " ++ generate_group_by_str b.group_by_list
          ++ " " ++ generate_having_str b.group_by_list.isSome b.having_condition
          ++ " " ++ generate_order_by_str b.order_by_spec
          ++ " " ++ generate_limit_str b.limit_value
          ++ " " ++ generate_offset_str b.offset_value
          ++ set_op_suffix " EXCEPT " (b.except_clauses.getD [])
          ++ set_op_suffix " UNION " (b.union_clauses.getD [])) ∧
    (∀ (tbl : Table) (oc : Condition),
      render_join (Join.new JoinType.Inner tbl oc) =
        "INNER JOIN " ++ tbl.get_name ++ " ON "
          ++ replaceWHERE (generate_where_condition_str (some oc))) ∧
    (∀ (tbl : Table) (oc : Condition),
      render_join (Join.new JoinType.Left tbl oc) =
        "LEFT JOIN " ++ tbl.get_name ++ " ON "
          ++ replaceWHERE (generate_where_condition_str (some oc))) ∧
    (∀ (tbl : Table) (oc : Condition),
      render_join (Join.new JoinType.Right tbl oc) =
        "RIGHT JOIN " ++ tbl.get_name ++ " ON "
          ++ replaceWHERE (generate_where_condition_str (some oc))) ∧
    (∀ (tbl : Table) (oc : Condition),
      render_join (Join.new JoinType.Full tbl oc) =
        "FULL OUTER JOIN " ++ tbl.get_name ++ " ON "
          ++ replaceWHERE (generate_where_condition_str (some oc))) := by
  refine ⟨fun b => ?_, fun tbl oc => rfl, fun tbl oc => rfl, fun tbl oc => rfl,
    fun tbl oc => rfl⟩
  rw [build_query_decomp]
  simp [base_statement, String.append_assoc]

/-- C7 counterexample: with an ON condition over the column `xWHEREy`, the
join is not rendered with only the leading WHERE keyword removed — the code's
`.replace("WHERE", "")` also deletes the occurrence inside the column
name. -/
theorem c7_counterexample :
    build_query c7_query ≠
      "SELECT a FROM t1 " ++
        ("INNER JOIN " ++ "t2" ++ " ON " ++
          remove_leading_where
            (generate_where_condition_str (some (Condition.Eq "xWHEREy" "v")))) ++
        "      " := by
  decide

/-- C9: every fluent builder operation rewrites exactly its own piece of
state: `select`, `distinct`, `from`, `where_clause`, `group_by`, `order_by`,
`limit`, `offset` and `having` overwrite one field and copy the other eleven,
while `except`, `union` and `join` append one element to their list (creating
it when absent) and copy the other eleven fields. -/
theorem c9_setter_frame (b : SelectQueryBuilder) (cols : List Column)
    (tbl : Table) (cond hcond : Condition) (gcols : List String)
    (ospec : List (List String × String)) (n m : Nat)
    (q q' : SelectQueryBuilder) (jt : JoinType) (jtbl : Table) (jcond : Condition) :
    (b.select cols = .mk b.table cols b.where_condition b.distinct_flag b.group_by_list
      b.order_by_spec b.limit_value b.offset_value b.having_condition
      b.except_clauses b.union_clauses b.joins) ∧
    (b.distinct = .mk b.table b.columns b.where_condition true b.group_by_list
      b.order_by_spec b.limit_value b.offset_value b.having_condition
      b.except_clauses b.union_clauses b.joins) ∧
    (b.from_table tbl = .mk (some tbl) b.columns b.where_condition b.distinct_flag
      b.group_by_list b.order_by_spec b.limit_value b.offset_value b.having_condition
      b.except_clauses b.union_clauses b.joins) ∧
    (b.where_clause cond = .mk b.table b.columns (some cond) b.distinct_flag
      b.group_by_list b.order_by_spec b.limit_value b.offset_value b.having_condition
      b.except_clauses b.union_clauses b.joins) ∧
    (b.group_by gcols = .mk b.table b.columns b.where_condition b.distinct_flag
      (some gcols) b.order_by_spec b.limit_value b.offset_value b.having_condition
      b.except_clauses b.union_clauses b.joins) ∧
    (b.order_by ospec = .mk b.table b.columns b.where_condition b.distinct_flag
      b.group_by_list (some ospec) b.limit_value b.offset_value b.having_condition
      b.except_clauses b.union_clauses b.joins) ∧
    (b.limit n = .mk b.table b.columns b.where_condition b.distinct_flag
      b.group_by_list b.order_by_spec (some n) b.offset_value b.having_condition
      b.except_clauses b.union_clauses b.joins) ∧
    (b.offset m = .mk b.table b.columns b.where_condition b.distinct_flag
      b.group_by_list b.order_by_spec b.limit_value (some m) b.having_condition
      b.except_clauses b.union_clauses b.joins) ∧
    (b.having hcond = .mk b.table b.columns b.where_condition b.distinct_flag
      b.group_by_list b.order_by_spec b.limit_value b.offset_value (some hcond)
      b.except_clauses b.union_clauses b.joins) ∧
    (b.except q = .mk b.table b.columns b.where_condition b.distinct_flag
      b.group_by_list b.order_by_spec b.limit_value b.offset_value b.having_condition
      (some (b.except_clauses.getD [] ++ [q])) b.union_clauses b.joins) ∧
    (b.union q' = .mk b.table b.columns b.where_condition b.distinct_flag
      b.group_by_list b.order_by_spec b.limit_value b.offset_value b.having_condition
      b.except_clauses (some (b.union_clauses.getD [] ++ [q'])) b.joins) ∧
    (b.join jt jtbl jcond = .mk b.table b.columns b.where_condition b.distinct_flag
      b.group_by_list b.order_by_spec b.limit_value b.offset_value b.having_condition
      b.except_clauses b.union_clauses
      (some (b.joins.getD [] ++ [Join.new jt jtbl jcond]))) := by
  cases b with
  | mk t c w d g o l off h e u j =>
      refine ⟨rfl, rfl, rfl, rfl, rfl, rfl, rfl, rfl, rfl, ?_, ?_, ?_⟩
      · cases e <;> rfl
      · cases u <;> rfl
      · cases j <;> rfl

/-- Embeds `value.replace("'", "''")` from `insert.rs` line 170: every single
quote in a literal value is doubled. -/
def escape_single_quotes (value : String) : String :=
  String.mk (replaceCharList '\'' ['\'', '\''] value.data)

/-- Embeds `get_name().replace("\"", "").replace("\\", "")` from `insert.rs`
lines 126 and 177: embedded double-quote characters are removed first, then
embedded backslash characters. -/
def sanitized_table_name (name : String) : String :=
  String.mk (replaceCharList '\\' [] (replaceCharList '"' [] name.data))

/-- Embeds `generate_statement` (`insert.rs` lines 153-199): one pass over
`column_fields.zip(column_values)` growing `columns_str` and `values_str`,
skipping auto-increment primary-key columns; the trailing `", "` is then
removed from each nonempty string by two `pop()` calls (dropping the last two
characters); Rust `String::is_empty` is rendered as emptiness of the
character list. -/
def generate_statement (table_row : Table) (first_statement : Bool) : String :=
  let cv := (table_row.get_column_fields.zip table_row.get_column_values).foldl
    (fun acc p =>
      if table_row.is_auto_increment_primary_key p.2 then acc
      else (acc.1 ++ p.1 ++ ", ", acc.2 ++ "'" ++ escape_single_quotes p.2 ++ "', "))
    ("", "")
  let table_name := sanitized_table_name table_row.get_name
  let columns_str := if cv.1.data.isEmpty then cv.1 else String.mk cv.1.data.dropLast.dropLast
  let values_str := if cv.2.data.isEmpty then cv.2 else String.mk cv.2.data.dropLast.dropLast
  if first_statement then
    "INSERT INTO " ++ table_name ++ " (" ++ columns_str ++ ") VALUES (" ++ values_str ++ ")"
  else
    "(" ++ values_str ++ ")"

/-- Embeds the statement-assembly part of `insert` (`insert.rs` lines 60-68):
`generate_statement(row, index == 0)` for each row of the batch, joined with
`", "`. (`generate_statement` always returns `Ok`, so the `Err` arm of the
Rust loop is dead.) -/
def insert_statements (table_rows : List Table) : String :=
  String.intercalate ", "
    (table_rows.enum.map (fun p => generate_statement p.2 (p.1 == 0)))

/-- Error type of the mssql module, as used by `insert.rs`. -/
inductive MSSQLError where
  | InvalidQuery

/-- Embeds `insert` (`insert.rs` lines 56-79): build the joined statements,
hand them to the backend collaborator, and map a backend failure to the
single typed error `MSSQLError::InvalidQuery`. The backend
(`conn.client.query`) is the external collaborator of spec section 6,
modelled as a function from the SQL text to its outcome. -/
def insert (backend : String → Except String Unit) (table_rows : List Table) :
    Except MSSQLError String :=
  let joined_statements := insert_statements table_rows
  match backend joined_statements with
  | .ok _ => .ok "Inserted into table, done."
  | .error _ => .error MSSQLError.InvalidQuery

/-- Embeds `generate_insert_into_statement` (`insert.rs` lines 119-134):
`INSERT INTO <sanitized table> (<comma-joined columns>) <subquery SQL>`; the
sub-query's `to_sql()` is `build_query` (`select.rs` lines 376-378). -/
def generate_insert_into_statement (columns : List String)
    (subquery : SelectQueryBuilder) (table_name : String) : String :=
  "INSERT INTO " ++ sanitized_table_name table_name ++ " ("
    ++ String.intercalate ", " columns ++ ") " ++ build_query subquery

/-- Comma-separated join of a list of fragments, the shape `", ".join(...)`
and the pop-trimmed accumulators produce. -/
def comma_sep : List String → String
  | [] => ""
  | [x] => x
  | x :: xs => x ++ ", " ++ comma_sep xs

/-- The non-auto-increment (column name, value) pairs of a row, in
declaration order: exactly the pairs the INSERT generator keeps. -/
def kept_columns (r : Table) : List (String × String) :=
  (r.get_column_fields.zip r.get_column_values).filter
    (fun p => !(r.is_auto_increment_primary_key p.2))

/-- The spec's shape of the first fragment of a batch INSERT:
`INSERT INTO <table> (<cols>) VALUES (<vals>)` over the kept columns only,
each value escaped and wrapped in single quotes. -/
def first_row_statement (r : Table) : String :=
  "INSERT INTO " ++ sanitized_table_name r.get_name ++ " ("
    ++ comma_sep ((kept_columns r).map Prod.fst) ++ ") VALUES ("
    ++ comma_sep ((kept_columns r).map (fun p => "'" ++ escape_single_quotes p.2 ++ "'"))
    ++ ")"

/-- The spec's shape of a follow-up fragment of a batch INSERT: a bare
parenthesized value tuple over the kept columns only. -/
def value_tuple (r : Table) : String :=
  "(" ++ comma_sep ((kept_columns r).map (fun p => "'" ++ escape_single_quotes p.2 ++ "'"))
    ++ ")"

lemma concat_map_str_congr {f g : α → String} (h : ∀ a, f a = g a) (l : List α) :
    concat_map_str f l = concat_map_str g l := by
  induction l with
  | nil => rfl
  | cons a as ih => simp [concat_map_str, h, ih]

lemma concat_map_str_map (f : β → String) (g : α → β) (l : List α) :
    concat_map_str f (l.map g) = concat_map_str (fun x => f (g x)) l := by
  induction l with
  | nil => rfl
  | cons a as ih => simp [concat_map_str, ih]

lemma intercalate_go_eq (sep : String) (as : List String) :
    ∀ acc, String.intercalate.go acc sep as =
      acc ++ concat_map_str (fun x => sep ++ x) as := by
  induction as with
  | nil => intro acc; simp [String.intercalate.go, concat_map_str]
  | cons a as ih =>
      intro acc
      simp [String.intercalate.go, concat_map_str, ih, String.append_assoc]

lemma comma_sep_cons (a : String) (as : List String) :
    comma_sep (a :: as) = a ++ concat_map_str (fun x => ", " ++ x) as := by
  induction as generalizing a with
  | nil => simp [comma_sep, concat_map_str]
  | cons b bs ih => simp [comma_sep, concat_map_str, ih, String.append_assoc]

lemma intercalate_comma_eq (l : List String) :
    String.intercalate ", " l = comma_sep l := by
  cases l with
  | nil => rfl
  | cons a as => simp [String.intercalate, intercalate_go_eq, comma_sep_cons]

lemma pop2_comma (s : String) :
    String.mk ((s ++ ", ").data.dropLast.dropLast) = s := by
  have h : (s ++ ", ").data = (s.data ++ [',']) ++ [' '] := by
    simp [String.data_append]
  rw [h, List.dropLast_concat, List.dropLast_concat]

lemma concat_trailing (f : α → String) (a : α) (l : List α) :
    concat_map_str (fun x => f x ++ ", ") (a :: l) = comma_sep ((a :: l).map f) ++ ", " := by
  induction l generalizing a with
  | nil => simp [concat_map_str, comma_sep]
  | cons b bs ih =>
      simp only [concat_map_str, List.map_cons] at *
      rw [ih]
      simp [comma_sep, String.append_assoc]

lemma insert_fold_eq (r : Table) (l : List (String × String)) :
    ∀ a b : String,
      l.foldl
        (fun acc p =>
          if r.is_auto_increment_primary_key p.2 then acc
          else (acc.1 ++ p.1 ++ ", ", acc.2 ++ "'" ++ escape_single_quotes p.2 ++ "', "))
        (a, b) =
      (a ++ concat_map_str (fun p => p.1 ++ ", ")
          (l.filter (fun p => !(r.is_auto_increment_primary_key p.2))),
        b ++ concat_map_str (fun p => "'" ++ escape_single_quotes p.2 ++ "', ")
          (l.filter (fun p => !(r.is_auto_increment_primary_key p.2)))) := by
  induction l with
  | nil => intro a b; simp [concat_map_str]
  | cons p ps ih =>
      intro a b
      simp only [List.foldl_cons]
      by_cases hp : r.is_auto_increment_primary_key p.2 = true
      · rw [if_pos hp, ih]
        simp [List.filter_cons, hp]
      · rw [if_neg hp, ih]
        simp [List.filter_cons, hp, concat_map_str, String.append_assoc]

lemma comma_trailing_not_empty (s : String) : (s ++ ", ").data.isEmpty = false := by
  simp [String.data_append]

lemma generate_statement_eq (r : Table) :
    generate_statement r true = first_row_statement r ∧
      generate_statement r false = value_tuple r := by
  have hval : ∀ p : String × String,
      "'" ++ escape_single_quotes p.2 ++ "', " =
        ("'" ++ escape_single_quotes p.2 ++ "'") ++ ", " := by
    intro p; simp [String.append_assoc]
  simp only [generate_statement, insert_fold_eq, String.empty_append]
  rw [show (r.get_column_fields.zip r.get_column_values).filter
      (fun p => !(r.is_auto_increment_primary_key p.2)) = kept_columns r from rfl]
  cases hk : kept_columns r with
  | nil =>
      simp [concat_map_str, first_row_statement, value_tuple, hk, comma_sep]
  | cons q qs =>
      rw [concat_map_str_congr hval (q :: qs)]
      rw [concat_trailing Prod.fst q qs,
        concat_trailing (fun p => "'" ++ escape_single_quotes p.2 ++ "'") q qs]
      simp only [comma_trailing_not_empty, Bool.false_eq_true, if_false, pop2_comma]
      simp [first_row_statement, value_tuple, hk]

lemma enumFrom_statements (rs : List Table) :
    ∀ n : Nat, 0 < n →
      (List.enumFrom n rs).map (fun p => generate_statement p.2 (p.1 == 0)) =
        rs.map (fun row => generate_statement row false) := by
  induction rs with
  | nil => intro n _; rfl
  | cons r rs ih =>
      intro n hn
      have hb : (n == 0) = false := by simp [Nat.pos_iff_ne_zero.mp hn]
      simp [List.enumFrom_cons, hb, ih (n + 1) (Nat.succ_pos n)]

/-- C5: a batch of N rows (N at least 1, here `r :: rs`) renders as exactly
one `INSERT INTO <table> (<cols>) VALUES (<vals>)` fragment for the first row
followed by one `(<vals>)` tuple per remaining row, all joined with `", "`;
both the column list and every value tuple range over `kept_columns` only,
i.e. the columns whose value `is_auto_increment_primary_key` accepts are
absent from both. -/
theorem c5_insert_batch (r : Table) (rs : List Table) :
    insert_statements (r :: rs) =
      first_row_statement r ++ concat_map_str (fun row => ", " ++ value_tuple row) rs := by
  simp only [insert_statements, List.enum_cons, List.map_cons]
  rw [enumFrom_statements rs 1 (by norm_num)]
  rw [intercalate_comma_eq, comma_sep_cons]
  rw [concat_map_str_map]
  have h0 : ((0 : Nat) == 0) = true := rfl
  rw [h0]
  rw [(generate_statement_eq r).1]
  congr 1
  exact concat_map_str_congr (fun row => by rw [(generate_statement_eq row).2]) rs

lemma replaceCharList_nil_rep (pat : Char) (l : List Char) :
    replaceCharList pat [] l = l.filter (fun c => !(c == pat)) := by
  induction l with
  | nil => rfl
  | cons c cs ih =>
      by_cases h : c = pat <;> simp [replaceCharList, List.filter_cons, h, ih]

lemma escape_count (l : List Char) :
    (replaceCharList '\'' ['\'', '\''] l).count '\'' = 2 * l.count '\'' := by
  induction l with
  | nil => rfl
  | cons c cs ih =>
      by_cases h : c = '\''
      · subst h
        simp [replaceCharList, List.count_cons, ih]
        omega
      · simp [replaceCharList, List.count_cons, h, ih]

lemma escape_other_chars (l : List Char) :
    (replaceCharList '\'' ['\'', '\''] l).filter (fun c => !(c == '\'')) =
      l.filter (fun c => !(c == '\'')) := by
  induction l with
  | nil => rfl
  | cons c cs ih =>
      by_cases h : c = '\'' <;> simp [replaceCharList, List.filter_cons, h, ih]

/-- C6: every single-quote character in a literal value is doubled by the
escaper while all other characters are kept unchanged and in order, the
escaped value is interpolated wrapped in single quotes, and the table name is
interpolated with every embedded double-quote and backslash character
removed. -/
theorem c6_escaping_sanitization (v nm : String) (r : Table) :
    ((escape_single_quotes v).data.count '\'' = 2 * v.data.count '\'') ∧
    ((escape_single_quotes v).data.filter (fun c => !(c == '\'')) =
      v.data.filter (fun c => !(c == '\''))) ∧
    ((sanitized_table_name nm).data =
      nm.data.filter (fun c => !(c == '\\') && !(c == '"'))) ∧
    (generate_statement r true =
      "INSERT INTO " ++ sanitized_table_name r.get_name ++ " ("
        ++ comma_sep ((kept_columns r).map Prod.fst) ++ ") VALUES ("
        ++ comma_sep
            ((kept_columns r).map (fun p => "'" ++ escape_single_quotes p.2 ++ "'"))
        ++ ")") ∧
    (generate_statement r false =
      "(" ++ comma_sep
          ((kept_columns r).map (fun p => "'" ++ escape_single_quotes p.2 ++ "'"))
        ++ ")") := by
  refine ⟨escape_count v.data, escape_other_chars v.data, ?_,
    (generate_statement_eq r).1, (generate_statement_eq r).2⟩
  simp only [sanitized_table_name]
  rw [replaceCharList_nil_rep, replaceCharList_nil_rep, List.filter_filter]

/-- Population of one row instance in `raw_execute` (`select.rs` lines
399-427): start from `T::default()` and call `set_column_value` once per
(column name, canonical text) cell of the driver row. Driver-native values
reach the core already converted to canonical text (spec section 6), so a
cell is a (name, text) pair. -/
def populate_row {Row : Type} (dflt : Row)
    (set_column_value : Row → String → String → Row)
    (cells : List (String × String)) : Row :=
  cells.foldl (fun inst cell => set_column_value inst cell.1 cell.2) dflt

/-- The row loop of `raw_execute`: each `row_result` is itself a `Result` and
is immediately `.unwrap()`-ed; an `Err` row aborts the process (modelled as
`none` — no value of the return type is produced), so no partial list of
already-populated rows can escape. -/
def unwrap_rows {Row : Type} (dflt : Row)
    (set_column_value : Row → String → String → Row) :
    List (Except String (List (String × String))) → Option (List Row)
  | [] => some []
  | .error _ :: _ => none
  | .ok cells :: rest =>
      (unwrap_rows dflt set_column_value rest).map
        (fun rows => populate_row dflt set_column_value cells :: rows)

/-- Embeds `raw_execute` (`select.rs` lines 392-433). The backend
collaborator outcome `conn.query_iter(sql)` is the function's input. The code
calls `.unwrap()` on it, so an `Err` from the backend aborts the process
instead of being returned: that abort is modelled as `none`, while a normal
return of `Ok(results)` is `some results`. -/
def raw_execute {Row : Type} (dflt : Row)
    (set_column_value : Row → String → String → Row)
    (query_result : Except String (List (Except String (List (String × String))))) :
    Option (List Row) :=
  match query_result with
  | .error _ => none
  | .ok row_results => unwrap_rows dflt set_column_value row_results

/-- C8 evaluation: when the backend reports a failure, `raw_execute` produces
no return value at all (the `.unwrap()` aborts — modelled `none`), rather
than returning the failure as a typed error value; a failure on a later row
likewise aborts without surfacing the rows already populated; the mssql
`insert` path, by contrast, does wrap a backend failure into the single typed
error `MSSQLError::InvalidQuery`, and on success returns only the
acknowledgement string. -/
theorem c8_backend_failure {Row : Type} (dflt : Row)
    (set_column_value : Row → String → String → Row) (e : String)
    (cells : List (String × String))
    (rest : List (Except String (List (String × String))))
    (rows : List Table) (msg : String) :
    (raw_execute dflt set_column_value (.error e) = none) ∧
    (raw_execute dflt set_column_value (.ok (.ok cells :: .error e :: rest)) = none) ∧
    (insert (fun _ => .error msg) rows = .error MSSQLError.InvalidQuery) ∧
    (insert (fun _ => .ok ()) rows = .ok "Inserted into table, done.") := by
  refine ⟨rfl, ?_, rfl, rfl⟩
  simp [raw_execute, unwrap_rows]

/-- Embeds `PrimaryKey<T>` (`keys.rs` line 39): a newtype over `T`. -/
structure PrimaryKey (α : Type) where
  val : α

/-- Embeds `AutoIncrementPrimaryKey<T>` (`keys.rs` line 42): a newtype over
`Option<T>`. -/
structure AutoIncrementPrimaryKey (α : Type) where
  val : Option α

/-- Embeds `PrimaryKey::new` (`keys.rs` lines 45-47). -/
def PrimaryKey.new (value : α) : PrimaryKey α := ⟨value⟩

/-- Embeds `PrimaryKey::get` (`keys.rs` lines 49-51). -/
def PrimaryKey.get (k : PrimaryKey α) : α := k.val

/-- Embeds `AutoIncrementPrimaryKey::new` (`keys.rs` lines 93-95). -/
def AutoIncrementPrimaryKey.new (value : Option α) : AutoIncrementPrimaryKey α := ⟨value⟩

/-- Embeds `AutoIncrementPrimaryKey::get` (`keys.rs` lines 97-99). -/
def AutoIncrementPrimaryKey.get (k : AutoIncrementPrimaryKey α) : Option α := k.val

/-- Embeds `AutoIncrementPrimaryKey::set` (`keys.rs` lines 101-103). -/
def AutoIncrementPrimaryKey.set (_ : AutoIncrementPrimaryKey α) (value : α) :
    AutoIncrementPrimaryKey α := ⟨some value⟩

/-- Embeds `FromStr for PrimaryKey<T>` (`keys.rs` lines 66-75): the inner
type's parser (`s.parse::<T>()`) is the `parse` argument; a parse failure is
propagated as `Err`. -/
def PrimaryKey.from_str (parse : String → Except ε α) (s : String) :
    Except ε (PrimaryKey α) :=
  match parse s with
  | .ok value => .ok ⟨value⟩
  | .error err => .error err

/-- Embeds `FromStr for AutoIncrementPrimaryKey<T>` (`keys.rs` lines
121-130): a successful parse yields `Ok(Some(value))`, a parse failure yields
`Ok(None)` — the error is swallowed, never propagated. -/
def AutoIncrementPrimaryKey.from_str (parse : String → Except ε α) (s : String) :
    Except ε (AutoIncrementPrimaryKey α) :=
  match parse s with
  | .ok value => .ok ⟨some value⟩
  | .error _ => .ok ⟨none⟩

/-- C10: for every input string, `AutoIncrementPrimaryKey::from_str` returns
`Ok` — holding `Some value` when the inner parse succeeds and `None` when it
fails — while `PrimaryKey::from_str` propagates the same parse failure as
`Err`. -/
theorem c10_from_str_total {α ε : Type} (parse : String → Except ε α) (s : String) :
    (AutoIncrementPrimaryKey.from_str parse s = .ok ⟨(parse s).toOption⟩) ∧
    (∀ e, parse s = .error e →
      AutoIncrementPrimaryKey.from_str parse s = .ok ⟨none⟩ ∧
        PrimaryKey.from_str parse s = .error e) := by
  cases hp : parse s with
  | ok value =>
      refine ⟨?_, fun e he => by simp [hp] at he⟩
      simp [AutoIncrementPrimaryKey.from_str, hp, Except.toOption]
  | error err =>
      refine ⟨?_, fun e he => ?_⟩
      · simp [AutoIncrementPrimaryKey.from_str, hp, Except.toOption]
      · constructor
        · simp [AutoIncrementPrimaryKey.from_str, hp]
        · simp [PrimaryKey.from_str, hp, he]

/-- A concrete parser for the C10 witness: accepts only the string `"7"`. -/
def demo_parse : String → Except String Nat :=
  fun s => if s = "7" then .ok 7 else .error "invalid digit"

/-- Witness for C10 at a failing concrete parse: the hypothesis
`demo_parse "x" = error` holds, the auto-increment key swallows the failure
into `Ok(None)` and the plain primary key propagates it. -/
theorem c10_from_str_total_witness :
    demo_parse "x" = Except.error "invalid digit" ∧
    AutoIncrementPrimaryKey.from_str demo_parse "x" = Except.ok ⟨none⟩ ∧
    PrimaryKey.from_str demo_parse "x" = Except.error "invalid digit" :=
  ⟨rfl, ((c10_from_str_total demo_parse "x").2 "invalid digit" rfl).1,
    ((c10_from_str_total demo_parse "x").2 "invalid digit" rfl).2⟩

end Njord
